import Mathlib

/-!
Verification of the workflow-engine specification against the
mapbox/mcp-devkit-server example scripts.

The development shallowly embeds the two LangGraph example workflows
(`examples/langgraph/style_workflow.py` and
`examples/langgraph/geojson_workflow.py`) and the Gradio agent loop
(`examples/gradio/app.py`).  External collaborators (the reasoning
backend and the MCP tool transport) are modelled as oracles supplying
the data the source code receives from them; everything the source
itself computes is translated directly.
-/

/-! ## Python value helpers shared by both workflow embeddings -/

/-- Truthiness of a Python `str | None` value: `None` and the empty
string are falsy, every other string is truthy. -/
def pyTruthyStr : Option String → Bool
  | none => false
  | some s => !(s.data.isEmpty)

/-- Substring test over character lists: does `hay` contain `needle`
as a contiguous run?  Models the Python `needle in hay` operator. -/
def subSearch (needle : List Char) : List Char → Bool
  | [] => needle.isEmpty
  | c :: rest => needle.isPrefixOf (c :: rest) || subSearch needle rest

/-- Models Python `needle in hay` on strings. -/
def strContainsSub (hay needle : String) : Bool :=
  subSearch needle.data hay.data

/-- Python `str.replace`: replace every non-overlapping occurrence of
`pat` by `rep`, scanning left to right.  After a match the remaining
matched characters are consumed through the countdown argument, so the
recursion stays structural on the list. -/
def replaceAux (pat rep : List Char) : List Char → Nat → List Char
  | [], _ => []
  | _ :: rest, skip + 1 => replaceAux pat rep rest skip
  | c :: rest, 0 =>
    if !pat.isEmpty && pat.isPrefixOf (c :: rest) then
      rep ++ replaceAux pat rep rest (pat.length - 1)
    else c :: replaceAux pat rep rest 0

/-- Python `s.replace(pat, rep)`. -/
def pyReplace (s pat rep : String) : String :=
  ⟨replaceAux pat.data rep.data s.data 0⟩

/-- Python `s.strip()`: remove leading and trailing whitespace. -/
def pyStrip (s : String) : String :=
  ⟨((s.data.dropWhile Char.isWhitespace).reverse.dropWhile Char.isWhitespace).reverse⟩

/-- Python `s.upper()`. -/
def pyToUpper (s : String) : String :=
  ⟨s.data.map Char.toUpper⟩

/-- Helper for line splitting, accumulating the current line in
reverse. -/
def splitLinesAux : List Char → List Char → List (List Char)
  | [], acc => [acc.reverse]
  | c :: rest, acc =>
    if c == '\n' then acc.reverse :: splitLinesAux rest []
    else splitLinesAux rest (c :: acc)

/-- Python `s.split('\n')`. -/
def pySplitLines (s : String) : List String :=
  (splitLinesAux s.data []).map List.asString

namespace StyleWorkflow

/-! ## MCP tool response wire format (as the adapter sees it)

`MapboxMCPClient.call_tool` inspects `result.content` (possibly absent
or not a list), the first content item's `isError` flag and `text`
attribute, and finally attempts `json.loads` on the text.  The outcome
of `json.loads` is part of the external response, so it is carried on
the content item (`jsonFields`): `some fields` when the text parses as
a JSON object with the given string fields, `none` when parsing raises
`JSONDecodeError`. -/

/-- One element of `result.content`.  `text := none` models a content
item without a `text` attribute. -/
structure ContentItem where
  isError : Bool := false
  text : Option String := none
  jsonFields : Option (List (String × String)) := none

/-- The `result.content` attribute: absent, present but not a list, or
a list of content items. -/
inductive ContentAttr
  | missing
  | nonList (rep : String)
  | clist (items : List ContentItem)

/-- A raw MCP tool-call response, together with its Python `str(...)`
rendering used by the fallback branch. -/
structure ToolResponse where
  content : ContentAttr
  strRep : String := ""

/-- The dictionary `call_tool` returns: either the parsed JSON object,
or the fallback wrapper dict with a single `result` key holding text. -/
inductive ToolValue
  | obj (fields : List (String × String))
  | wrapped (text : String)

/-- Python `d.get(key, default)` on a `call_tool` result dictionary.
The `wrapped` constructor is the dict holding only the key `result`. -/
def ToolValue.get (v : ToolValue) (key default : String) : String :=
  match v with
  | .obj fields => (fields.lookup key).getD default
  | .wrapped t => if key == "result" then t else default

/-- `MapboxMCPClient.call_tool` from `style_workflow.py` (lines
87-120), after the transport has produced a raw response.  Raised
`ValueError`s are modelled as `Except.error`, the same constructor a
transport-level failure uses, because in the source both are Python
exceptions propagating to the caller.  Empty content, an error-flagged
first item and empty text each raise a distinct message. -/
def call_tool (tool_name : String) (resp : ToolResponse) : Except String ToolValue :=
  match resp.content with
  | .clist items =>
    match items with
    | [] => .error ("Tool " ++ tool_name ++ " returned empty content")
    | content_item :: _ =>
      if content_item.isError then
        .error ("Tool " ++ tool_name ++ " failed: " ++ (content_item.text.getD "Unknown error"))
      else
        match content_item.text with
        | some text =>
          if text.data.isEmpty || ((pyStrip text).data.isEmpty) then
            .error ("Tool " ++ tool_name ++ " returned empty text")
          else
            match content_item.jsonFields with
            | some fields => .ok (.obj fields)
            | none => .ok (.wrapped text)
        | none => .ok (.wrapped resp.strRep)
  | _ => .ok (.wrapped resp.strRep)

/-! ## Workflow state -/

/-- `StyleWorkflowState` (lines 32-42).  `final_style` starts as the
empty dict; `error` is `str | None`. -/
structure StyleState where
  requirements : String
  existing_styles : List String
  style_analysis : String
  created_style_id : String
  validation_result : String
  validation_passed : Bool
  iteration_count : Nat
  final_style : ToolValue
  error : Option String

/-- The initial state built in `example_delivery_app` (lines 402-412),
parameterised by the requirements text. -/
def exampleInitialState (reqs : String) : StyleState :=
  { requirements := reqs
    existing_styles := []
    style_analysis := ""
    created_style_id := ""
    validation_result := ""
    validation_passed := false
    iteration_count := 0
    final_style := .obj []
    error := none }

/-! ## External behaviour oracle

Each field describes what the reasoning backend or the MCP transport
returns on the k-th visit of the node performing the call (k counts
prior entries of that node within the instance).  Transport failures
are `Except.error`. -/
structure StyleOracle where
  listStylesResp : Nat → Except String ToolResponse
  stylesList : Nat → List String
  analyzeLLM : Nat → String
  baseStyleLLM : Nat → String
  builderResp : Nat → Except String ToolResponse
  createResp : Nat → Except String ToolResponse
  retrieveResp : Nat → Except String ToolResponse
  validateLLM : Nat → String
  finalizeLLM : Nat → String

/-! ## Node executors -/

/-- `analyze_requirements_node` (lines 132-166): fetch the style list
(ignoring failures), then store the reasoning backend's analysis.  The
`styles` field extracted from a successful JSON response is supplied by
the oracle (`stylesList`). -/
def analyze_requirements_node (o : StyleOracle) (k : Nat) (s : StyleState) : StyleState :=
  let s1 :=
    match o.listStylesResp k with
    | .error _ => { s with existing_styles := [] }
    | .ok resp =>
      match call_tool "list_styles_tool" resp with
      | .error _ => { s with existing_styles := [] }
      | .ok _ => { s with existing_styles := o.stylesList k }
  { s1 with style_analysis := o.analyzeLLM k }

/-- The values of the `valid_styles` mapping in `create_style_node`
(lines 185-191). -/
def valid_style_values : List String :=
  ["streets-v12", "light-v11", "dark-v11", "outdoors-v12", "satellite-v9"]

/-- Lines 182-198 of `create_style_node`: strip whitespace, remove
every occurrence of `mapbox/`, and fall back to `streets-v12` when the
result is not one of the five valid identifiers. -/
def cleanBaseStyle (responseContent : String) : String :=
  let base_style := pyStrip responseContent
  let base_style_clean := pyReplace base_style "mapbox/" ""
  if valid_style_values.contains base_style_clean then base_style_clean
  else "streets-v12"

/-- Scan for the first occurrence of `close` and return the characters
before it, mirroring the non-greedy group of the builder-response
regex. -/
def untilClose (close : List Char) : List Char → Option (List Char)
  | [] => none
  | c :: rest =>
    if close.isPrefixOf (c :: rest) then some []
    else
      match untilClose close rest with
      | some found => some (c :: found)
      | none => none

/-- Leftmost match of the pattern: at each position, if the opening
marker starts here and a closing marker follows, the group between
them is the match; otherwise continue scanning. -/
def scanJsonBlock (openM closeM : List Char) : List Char → Option (List Char)
  | [] => none
  | c :: rest =>
    if openM.isPrefixOf (c :: rest) then
      match untilClose closeM ((c :: rest).drop openM.length) with
      | some grp => some grp
      | none => scanJsonBlock openM closeM rest
    else scanJsonBlock openM closeM rest

/-- The search `re.search` of the pattern matching a fenced json block
(non-greedy, DOTALL) used at line 221 of `create_style_node`, returning
the first captured group. -/
def extractJsonBlock (s : String) : Option String :=
  (scanJsonBlock ("```json\n".data) ("\n```".data) s.data).map List.asString

/-- `create_style_node` (lines 169-242).  The reasoning backend's
base-style answer is cleaned and validated, then the two tool calls
run inside one `try` block: any raised failure (transport error,
adapter `ValueError`, missing json block) lands in the `except` branch,
which records `error` and leaves every other field - in particular
`iteration_count` - unchanged.  JSON decoding of the extracted style
block is abstracted: the extracted text itself stands for the parsed
style object. -/
def create_style_node (o : StyleOracle) (k : Nat) (s : StyleState) : StyleState :=
  let base_style_clean := cleanBaseStyle (o.baseStyleLLM k)
  let iteration := s.iteration_count
  let failWith := fun (e : String) =>
    { s with error := some ("Failed to create style: " ++ e) }
  -- mark the cleaned style as used by the style_builder_tool arguments
  let _args_base_style := base_style_clean
  match o.builderResp k with
  | .error e => failWith e
  | .ok resp =>
    match call_tool "style_builder_tool" resp with
    | .error e => failWith e
    | .ok builder_result =>
      let result_text := builder_result.get "result" ""
      match extractJsonBlock result_text with
      | none => failWith "Could not find style JSON in builder response"
      | some _style_json =>
        match o.createResp k with
        | .error e => failWith e
        | .ok cresp =>
          match call_tool "create_style_tool" cresp with
          | .error e => failWith e
          | .ok create_result =>
            { s with
              created_style_id := create_result.get "id" ""
              iteration_count := iteration + 1 }

/-- `validate_style_node` (lines 245-291).  An empty
`created_style_id` short-circuits; otherwise the style is retrieved
(failures land in the `except` branch) and the reasoning backend's
verdict text is checked for the substring `PASS` after upcasing. -/
def validate_style_node (o : StyleOracle) (k : Nat) (s : StyleState) : StyleState :=
  if s.created_style_id.data.isEmpty then
    { s with
      validation_passed := false
      validation_result := "No style created to validate" }
  else
    match o.retrieveResp k with
    | .error e =>
      { s with
        validation_passed := false
        validation_result := "Validation error: " ++ e }
    | .ok resp =>
      match call_tool "retrieve_style_tool" resp with
      | .error e =>
        { s with
          validation_passed := false
          validation_result := "Validation error: " ++ e }
      | .ok style_data =>
        let validation_text := o.validateLLM k
        let passed := strContainsSub (pyToUpper validation_text) "PASS"
        let s1 :=
          { s with
            validation_result := validation_text
            validation_passed := passed }
        if passed then { s1 with final_style := style_data } else s1

/-- `finalize_style_node` (lines 294-321): asks the backend for
documentation and prints it; the state is returned unchanged. -/
def finalize_style_node (o : StyleOracle) (k : Nat) (s : StyleState) : StyleState :=
  let _docs := o.finalizeLLM k
  s

/-- `should_retry` (lines 324-341), the conditional router.  Python
truthiness of `state.get("error")` and `state.get("validation_passed")`
is modelled exactly. -/
def should_retry (s : StyleState) : String :=
  if pyTruthyStr s.error then "error"
  else if s.validation_passed then "finalize"
  else if s.iteration_count ≥ 3 then "finalize"
  else "retry"

/-! ## Graph and execution engine

The graph shape is translated from `create_workflow` (lines 345-373).
The driving engine itself is LangGraph, which is external to this
repository, so the engine below is modelled from the spec. -/

/-- The four registered nodes of the style workflow. -/
inductive SNode
  | analyze
  | create
  | validate
  | finalize
deriving DecidableEq

/-- A traversal position: a node, or the END marker. -/
inductive SPos
  | node (n : SNode)
  | terminal
deriving DecidableEq

/-- Dispatch one node executor. -/
def execSNode (o : StyleOracle) (k : Nat) : SNode → StyleState → StyleState
  | .analyze => analyze_requirements_node o k
  | .create => create_style_node o k
  | .validate => validate_style_node o k
  | .finalize => finalize_style_node o k

/-- The routing table of the conditional edge out of `validate`
(lines 361-369). -/
def condTable : List (String × SPos) :=
  [("retry", .node .create), ("finalize", .node .finalize), ("error", .terminal)]

/-- Edge resolution from `create_workflow`: three direct edges, one
conditional edge keyed by the router's decision, `finalize` to END.
`none` models a router decision absent from the table (the Engine-level
RouterContractViolation case). -/
def nextPos (router : StyleState → String) (s : StyleState) : SNode → Option SPos
  | .analyze => some (.node .create)
  | .create => some (.node .validate)
  | .validate => condTable.lookup (router s)
  | .finalize => some .terminal

/-- Per-instance node-entry counters. -/
structure Visits where
  analyze : Nat
  create : Nat
  validate : Nat
  finalize : Nat
deriving DecidableEq

/-- All counters zero. -/
def Visits.zero : Visits := ⟨0, 0, 0, 0⟩

/-- Read one node's counter. -/
def Visits.get (v : Visits) : SNode → Nat
  | .analyze => v.analyze
  | .create => v.create
  | .validate => v.validate
  | .finalize => v.finalize

/-- Bump one node's counter. -/
def Visits.inc (v : Visits) : SNode → Visits
  | .analyze => { v with analyze := v.analyze + 1 }
  | .create => { v with create := v.create + 1 }
  | .validate => { v with validate := v.validate + 1 }
  | .finalize => { v with finalize := v.finalize + 1 }

/-- Outcome of driving one workflow instance. -/
inductive RunResult
  | final (s : StyleState) (v : Visits)
  | loopSafety (s : StyleState) (v : Visits)
  | routerViolation (s : StyleState) (v : Visits)
  | outOfFuel

/-- Modelled from the spec: the Execution Engine of sections 4.2-4.3.
The engine that actually drives the source workflow is LangGraph,
external to this repository; the spec reimplements it with a per-node
entry counter and a hard visit ceiling.  Entering a node bumps its
counter; exceeding `ceil` aborts with `LoopSafetyError`; otherwise the
node executor runs (its oracle indexed by the number of prior entries)
and the next position is resolved, a table miss being the fatal
`RouterContractViolation`.  `fuel` bounds the recursion purely
syntactically; `outOfFuel` is reachable only when `fuel` is too small
for the ceiling, which the liveness theorem rules out. -/
def runStyle (ceil : Nat) (o : StyleOracle) (router : StyleState → String) :
    Nat → SPos → StyleState → Visits → RunResult
  | 0, _, _, _ => .outOfFuel
  | _ + 1, .terminal, s, v => .final s v
  | fuel + 1, .node n, s, v =>
    let v' := v.inc n
    if ceil < v'.get n then .loopSafety s v'
    else
      let s' := execSNode o (v.get n) n s
      match nextPos router s' n with
      | none => .routerViolation s' v'
      | some p => runStyle ceil o router fuel p s' v'

/-- Remaining visit allowance summed over all four nodes; strictly
decreases on every engine step that recurses. -/
def visitMeasure (ceil : Nat) (v : Visits) : Nat :=
  (ceil + 1 - v.analyze) + (ceil + 1 - v.create) +
    (ceil + 1 - v.validate) + (ceil + 1 - v.finalize)

end StyleWorkflow

namespace GeojsonWorkflow

/-! ## GeoJSON data model

Only the attributes `assess_quality_node` and `classify_data_node`
actually inspect are modelled: a feature's geometry type string, its
coordinates (a list whose elements are numbers or something else -
nested lists are never read further), and whether its properties dict
is non-empty.  Floating point coordinates are embedded as rationals;
the source only compares them against the integer bounds 180 and 90. -/

/-- One element of a coordinates list: a number, or any non-numeric
value (for which the source's comparison raises `TypeError`). -/
inductive CoordElem
  | num (q : ℚ)
  | nonNum
deriving DecidableEq

/-- A `coordinates` value: a list, or a non-list value. -/
inductive CoordsVal
  | clist (elems : List CoordElem)
  | nonList
deriving DecidableEq

/-- A `geometry` dict: `type` and `coordinates` keys, each possibly
absent. -/
structure GeomObj where
  gtype : Option String := none
  coordinates : Option CoordsVal := none
deriving DecidableEq

/-- One GeoJSON feature as read by the workflow nodes. `properties`
is `none` when absent; `propertiesNonEmpty` tells whether the dict is
non-empty (its content is never read). -/
structure Feature where
  geometry : Option GeomObj := none
  hasProperties : Bool := false
  propertiesNonEmpty : Bool := false
deriving DecidableEq

/-- `feature.get("geometry", empty).get("type", "")`. -/
def Feature.typeOf (f : Feature) : String :=
  ((f.geometry.bind fun g => g.gtype).getD "")

/-- `feature.get("geometry", empty).get("coordinates", [])`. -/
def Feature.coordsOf (f : Feature) : CoordsVal :=
  ((f.geometry.bind fun g => g.coordinates).getD (.clist []))

/-! ## State as a Python dict

`GeoJSONWorkflowState` is a `TypedDict`: at run time a plain dict
threaded through the nodes, which write fields by key assignment and
never delete any.  The state is therefore embedded as an association
list keyed by field name, so that field *presence* is observable. -/

/-- A state-field value. `vgeo` carries the feature list of the
`geojson_data` document (`data.get("features", [])`). -/
inductive GVal
  | vnone
  | vstr (s : String)
  | vnat (n : Nat)
  | vq (q : ℚ)
  | vlist (l : List String)
  | vgeo (features : List Feature)
deriving DecidableEq

/-- The state dict. -/
def GeoState := List (String × GVal)

/-- Key assignment `state[k] = v`: replaces the first binding of `k`,
or appends a new one. -/
def setKey (s : GeoState) (k : String) (v : GVal) : GeoState :=
  match s with
  | [] => [(k, v)]
  | (k0, v0) :: rest => if k0 == k then (k0, v) :: rest else (k0, v0) :: setKey rest k v

/-- Key presence `k in state`. -/
def hasKey : GeoState → String → Bool
  | [], _ => false
  | (k0, _) :: rest, k => k0 == k || hasKey rest k

/-- Dict lookup `state.get(k)`. -/
def getKey (s : GeoState) (k : String) : Option GVal :=
  List.lookup k s

/-- `state["geojson_data"]` followed by `.get("features", [])`. -/
def getFeatures (s : GeoState) : List Feature :=
  match getKey s "geojson_data" with
  | some (.vgeo fs) => fs
  | _ => []

/-- The declared fields of `GeoJSONWorkflowState` (lines 31-42). -/
def declaredFields : List String :=
  ["geojson_data", "data_type", "feature_count", "quality_score",
   "issues", "analysis", "visualization_url", "recommendations", "report"]

/-- The initial state built in `run_workflow_example` (lines 582-592):
every declared field bound to its default. -/
def geoInitialState (data : List Feature) : GeoState :=
  [("geojson_data", .vgeo data), ("data_type", .vnone), ("feature_count", .vnat 0),
   ("quality_score", .vq 0), ("issues", .vlist []), ("analysis", .vstr ""),
   ("visualization_url", .vstr ""), ("recommendations", .vlist []), ("report", .vstr "")]

/-! ## External behaviour oracle for the GeoJSON workflow -/

/-- Adapter-level response plus backend texts consumed by the nodes.
`classify`, `assess_quality` and `report` are pure and need nothing. -/
structure GeoOracle where
  pointsLLM : String
  linesLLM : String
  polygonsLLM : String
  mixedLLM : String
  previewResp : Except String StyleWorkflow.ToolResponse
  recommendLLM : String

/-- `MapboxMCPClient.call_tool` of `geojson_workflow.py` (lines
86-96): no error-flag, no empty-content and no empty-text checks; the
first content item's text is wrapped as a dict, and an empty content
list falls back to `str(result.content)`.  Reading `.text` off an item
without that attribute raises `AttributeError`, modelled as
`Except.error`.  `raw` is the `return result` branch for a response
with no `content` attribute. -/
inductive GeoToolResult
  | textDict (text : String)
  | raw
deriving DecidableEq

/-- The geojson adapter. -/
def geo_call_tool (resp : StyleWorkflow.ToolResponse) : Except String GeoToolResult :=
  match resp.content with
  | .clist (item :: _) =>
    match item.text with
    | some t => .ok (.textDict t)
    | none => .error "AttributeError: text"
  | .clist [] => .ok (.textDict "[]")
  | .nonList rep => .ok (.textDict rep)
  | .missing => .ok .raw

/-! ## Node executors -/

/-- Classification of the geometry-type set (lines 124-134). -/
def classifyType (gtypes : List String) : String :=
  if gtypes.length > 1 then "mixed"
  else if gtypes.contains "Point" || gtypes.contains "MultiPoint" then "points"
  else if gtypes.contains "LineString" || gtypes.contains "MultiLineString" then "lines"
  else if gtypes.contains "Polygon" || gtypes.contains "MultiPolygon" then "polygons"
  else "mixed"

/-- `classify_data_node` (lines 108-140): counts features, collects
the set of geometry types and writes `feature_count` and `data_type`. -/
def classify_data_node (s : GeoState) : GeoState :=
  let features := getFeatures s
  let s1 := setKey s "feature_count" (.vnat features.length)
  let geometry_types := (features.map Feature.typeOf).eraseDups
  setKey s1 "data_type" (.vstr (classifyType geometry_types))

/-- The per-feature coordinate check of `assess_quality_node` (lines
162-180), returning whether the check passed and the issues appended.
For non-point data the branch is a simplifying pass.  A two-element
list with a non-numeric member makes the range comparison raise
`TypeError`, caught by the `except` branch. -/
def coordCheck (isPoints : Bool) (i : Nat) (f : Feature) : Bool × List String :=
  if isPoints then
    match f.coordsOf with
    | .clist [CoordElem.num lng, CoordElem.num lat] =>
      if -180 ≤ lng ∧ lng ≤ 180 ∧ -90 ≤ lat ∧ lat ≤ 90 then (true, [])
      else (false, ["Feature " ++ toString i ++ ": Invalid coordinates"])
    | .clist [_, _] =>
      (false, ["Feature " ++ toString i ++ ": Error checking coordinates - TypeError"])
    | _ => (false, ["Feature " ++ toString i ++ ": Malformed coordinates"])
  else (true, [])

/-- Fold of the feature loop: (total checks, passed checks, issues). -/
def coordLoop (isPoints : Bool) : Nat → List Feature → Nat × Nat × List String
  | _, [] => (0, 0, [])
  | i, f :: rest =>
    let (ok, iss) := coordCheck isPoints i f
    let (t, p, is2) := coordLoop isPoints (i + 1) rest
    (t + 1, (if ok then 1 else 0) + p, iss ++ is2)

/-- `assess_quality_node` (lines 143-200): empty-dataset check, the
coordinate loop, the property-completeness check, and the quality
score `passed / total`. -/
def assess_quality_node (s : GeoState) : GeoState :=
  let features := getFeatures s
  let emptyOk := features.length > 0
  let isPoints := getKey s "data_type" == some (.vstr "points")
  let (ct, cp, cIss) := coordLoop isPoints 0 features
  let has_properties := features.all fun f => f.hasProperties && f.propertiesNonEmpty
  let total_checks := 1 + ct + 1
  let passed_checks := (if emptyOk then 1 else 0) + cp + (if has_properties then 1 else 0)
  let issues :=
    (if emptyOk then [] else ["No features in dataset"]) ++ cIss ++
      (if has_properties then [] else ["Some features have missing or empty properties"])
  let score : ℚ := if total_checks > 0 then (passed_checks : ℚ) / (total_checks : ℚ) else 0
  setKey (setKey s "quality_score" (.vq score)) "issues" (.vlist issues)

/-- `analyze_points_node` (lines 203-226): stores the backend's
analysis text. -/
def analyze_points_node (o : GeoOracle) (s : GeoState) : GeoState :=
  setKey s "analysis" (.vstr o.pointsLLM)

/-- `analyze_lines_node` (lines 229-252). -/
def analyze_lines_node (o : GeoOracle) (s : GeoState) : GeoState :=
  setKey s "analysis" (.vstr o.linesLLM)

/-- `analyze_polygons_node` (lines 255-278). -/
def analyze_polygons_node (o : GeoOracle) (s : GeoState) : GeoState :=
  setKey s "analysis" (.vstr o.polygonsLLM)

/-- `analyze_mixed_node` (lines 281-304). -/
def analyze_mixed_node (o : GeoOracle) (s : GeoState) : GeoState :=
  setKey s "analysis" (.vstr o.mixedLLM)

/-- Extraction of the preview URL (lines 318-327): the characters of
the first run starting at `https://api.mapbox.com` and extending over
everything that is neither whitespace nor a closing parenthesis. -/
def takeUrlChars : List Char → List Char
  | [] => []
  | c :: rest => if c.isWhitespace || c == ')' then [] else c :: takeUrlChars rest

/-- Scan for the URL prefix and return the regex match, if any. -/
def findUrl (marker : List Char) : List Char → Option (List Char)
  | [] => none
  | c :: rest =>
    if marker.isPrefixOf (c :: rest) then some (takeUrlChars (c :: rest))
    else findUrl marker rest

/-- `create_visualization_node` (lines 307-335): call the preview
tool; on any raised failure record the error text into
`visualization_url`, otherwise extract a URL from the result text. -/
def create_visualization_node (o : GeoOracle) (s : GeoState) : GeoState :=
  match o.previewResp with
  | .error e => setKey s "visualization_url" (.vstr ("Error: " ++ e))
  | .ok resp =>
    match geo_call_tool resp with
    | .error e => setKey s "visualization_url" (.vstr ("Error: " ++ e))
    | .ok .raw =>
      -- `result.get("text", "")` on a non-dict raises AttributeError,
      -- caught by the except branch
      setKey s "visualization_url" (.vstr "Error: AttributeError: get")
    | .ok (.textDict result_text) =>
      if strContainsSub result_text "https://api.mapbox.com" then
        match findUrl ("https://api.mapbox.com".data) result_text.data with
        | some url => setKey s "visualization_url" (.vstr url.asString)
        | none => setKey s "visualization_url" (.vstr "Visualization created")
      else setKey s "visualization_url" (.vstr "Visualization created")

/-- The line filter of `generate_recommendations_node` (lines
362-366): kept lines are non-blank after stripping and start with a
digit or a dash. -/
def keepRecLine (l : String) : Bool :=
  let t := pyStrip l
  !(t.data.isEmpty) &&
    (match t.data with
     | c :: _ => c.isDigit || c == '-'
     | [] => false)

/-- `generate_recommendations_node` (lines 338-372). -/
def generate_recommendations_node (o : GeoOracle) (s : GeoState) : GeoState :=
  let recommendations := ((pySplitLines o.recommendLLM).filter keepRecLine).map pyStrip
  setKey s "recommendations" (.vlist recommendations)

/-- Python str() of a state value as interpolated into the report
text.  The exact rendering (`:.1%` float formatting in particular) is
abstracted; no claim depends on it. -/
def pyStr : GVal → String
  | .vnone => "None"
  | .vstr s => s
  | .vnat n => toString n
  | .vq q => toString q
  | .vlist l => String.intercalate ", " l
  | .vgeo _ => "FeatureCollection"

/-- Value of a field as rendered into the report. -/
def fieldStr (s : GeoState) (k : String) : String :=
  pyStr ((getKey s k).getD .vnone)

/-- `generate_report_node` (lines 375-422): assembles the report text
from the state fields (limiting issues to five) and writes it to
`report`. -/
def generate_report_node (s : GeoState) : GeoState :=
  let issues := match getKey s "issues" with | some (.vlist l) => l | _ => []
  let recs := match getKey s "recommendations" with | some (.vlist l) => l | _ => []
  let issuesPart :=
    if issues.isEmpty then "No significant issues detected"
    else String.intercalate "\n" ((issues.take 5).map fun i => "- " ++ i)
  let recsPart := String.intercalate "\n" recs
  let report :=
    "# GeoJSON Analysis Report\n" ++
      "Data Type: " ++ fieldStr s "data_type" ++ "\n" ++
      "Feature Count: " ++ fieldStr s "feature_count" ++ "\n" ++
      "Quality Score: " ++ fieldStr s "quality_score" ++ "\n" ++
      issuesPart ++ "\n" ++ fieldStr s "analysis" ++ "\n" ++
      recsPart ++ "\n" ++ fieldStr s "visualization_url"
  setKey s "report" (.vstr report)

/-- `route_by_data_type` (lines 426-438): the internal routing dict
and its `analyze_mixed` default.  `state.get("data_type", "mixed")`
yields the stored value (possibly `None`) when the key is present and
`"mixed"` only when it is absent; a non-string value is not a key of
the routing dict, so it falls to the default. -/
def routingDict : List (String × String) :=
  [("points", "analyze_points"), ("lines", "analyze_lines"),
   ("polygons", "analyze_polygons"), ("mixed", "analyze_mixed")]

/-- The classification router. -/
def route_by_data_type (s : GeoState) : String :=
  let data_type := (getKey s "data_type").getD (.vstr "mixed")
  match data_type with
  | .vstr d => (routingDict.lookup d).getD "analyze_mixed"
  | _ => "analyze_mixed"

/-! ## Graph and runner -/

/-- The nine registered nodes of `create_workflow` (lines 442-483). -/
inductive GNode
  | classify
  | assess_quality
  | analyze_points
  | analyze_lines
  | analyze_polygons
  | analyze_mixed
  | visualize
  | recommend
  | report
deriving DecidableEq

/-- A traversal position. -/
inductive GPos
  | node (n : GNode)
  | terminal
deriving DecidableEq

/-- Dispatch one node executor. -/
def execGNode (o : GeoOracle) : GNode → GeoState → GeoState
  | .classify => classify_data_node
  | .assess_quality => assess_quality_node
  | .analyze_points => analyze_points_node o
  | .analyze_lines => analyze_lines_node o
  | .analyze_polygons => analyze_polygons_node o
  | .analyze_mixed => analyze_mixed_node o
  | .visualize => create_visualization_node o
  | .recommend => generate_recommendations_node o
  | .report => generate_report_node

/-- The routing table of the conditional edge out of `assess_quality`
(lines 462-471). -/
def geoCondTable : List (String × GPos) :=
  [("analyze_points", .node .analyze_points), ("analyze_lines", .node .analyze_lines),
   ("analyze_polygons", .node .analyze_polygons), ("analyze_mixed", .node .analyze_mixed)]

/-- Edge resolution: direct edges, the conditional edge, and
`report -> END`. -/
def geoNextPos (s : GeoState) : GNode → Option GPos
  | .classify => some (.node .assess_quality)
  | .assess_quality => geoCondTable.lookup (route_by_data_type s)
  | .analyze_points => some (.node .visualize)
  | .analyze_lines => some (.node .visualize)
  | .analyze_polygons => some (.node .visualize)
  | .analyze_mixed => some (.node .visualize)
  | .visualize => some (.node .recommend)
  | .recommend => some (.node .report)
  | .report => some .terminal

/-- Outcome of one GeoJSON-workflow traversal. -/
inductive GeoRunResult
  | final (s : GeoState)
  | routerViolation
  | outOfFuel

/-- Modelled from the spec: the engine loop of section 4.2
specialised to the (acyclic) GeoJSON graph; the driving engine in the
source is LangGraph, external to this repository.  Executes the
current node, resolves the next edge, stops at END. -/
def geoRun (o : GeoOracle) : Nat → GPos → GeoState → GeoRunResult
  | 0, _, _ => .outOfFuel
  | _ + 1, .terminal, s => .final s
  | fuel + 1, .node n, s =>
    let s' := execGNode o n s
    match geoNextPos s' n with
    | none => .routerViolation
    | some p => geoRun o fuel p s'

end GeojsonWorkflow

namespace GradioApp

/-! ## Tool-augmented agent loop (`examples/gradio/app.py`)

`chat_with_agent` runs `for iteration in range(3)`: it calls the
reasoning backend, joins the text blocks of the response into
`response_text` (overwriting the previous iteration's value), stops if
the response requested no tools, and otherwise executes the requested
tools and loops.  The backend is modelled as an oracle mapping the
iteration index to a response; tool execution and UI-resource
extraction have no effect on the values the claims are about and are
abstracted away. -/

/-- One `tool_use` content block of a backend response. -/
structure ToolUse where
  name : String
  useId : String
deriving DecidableEq

/-- One backend response: its text blocks and tool-use blocks. -/
structure AgentResponse where
  textBlocks : List String
  toolUses : List ToolUse

/-- The reasoning backend, indexed by iteration. -/
structure ChatOracle where
  respond : Nat → AgentResponse

/-- Python `"\n".join(text_parts)` (line 195). -/
def joinNL (parts : List String) : String :=
  String.intercalate "\n" parts

/-- The body of the `for iteration in range(3)` loop (lines 176-258),
recursing over the remaining iteration indices.  Returns the final
`response_text` together with the number of inference calls made (an
instrumentation counter; the source has no such variable). -/
def agentRounds (o : ChatOracle) : List Nat → String → String × Nat
  | [], response_text => (response_text, 0)
  | i :: rest, _ =>
    let response := o.respond i
    let response_text := joinNL response.textBlocks
    if response.toolUses.isEmpty then (response_text, 1)
    else
      let (t, c) := agentRounds o rest response_text
      (t, c + 1)

/-- `chat_with_agent` reduced to its agent loop: `range(3)` with an
initially empty `response_text` (line 173). -/
def chat_with_agent (o : ChatOracle) : String × Nat :=
  agentRounds o [0, 1, 2] ""

end GradioApp

/-! ## Concrete inputs for witnesses and counterexamples -/

namespace Inputs

open StyleWorkflow GeojsonWorkflow GradioApp

/-- A well-formed builder-tool response: markdown text containing a
fenced json block (not itself JSON, hence no `jsonFields`). -/
def builderOk : ToolResponse :=
  { content := .clist [{ text := some "Here:\n```json\n\x7b\x7d\n```\ndone" }] }

/-- A create-tool response whose text parses as a JSON object with an
`id` field. -/
def createOk : ToolResponse :=
  { content := .clist [{ text := some "j", jsonFields := some [("id", "style-1")] }] }

/-- A retrieve-tool response parsing as a JSON object. -/
def retrieveOk : ToolResponse :=
  { content := .clist [{ text := some "j", jsonFields := some [("name", "LangGraph Style")] }] }

/-- Oracle for the retry scenario: every tool call succeeds; the
validator verdict fails on the first two validate visits and passes on
the third. -/
def c5Oracle : StyleOracle :=
  { listStylesResp := fun _ => .error "transport down"
    stylesList := fun _ => []
    analyzeLLM := fun _ => "use a streets base"
    baseStyleLLM := fun _ => "mapbox/streets-v12"
    builderResp := fun _ => .ok builderOk
    createResp := fun _ => .ok createOk
    retrieveResp := fun _ => .ok retrieveOk
    validateLLM := fun k => if k ≥ 2 then "PASS: meets the requirements" else "FAIL: contrast too low"
    finalizeLLM := fun _ => "docs" }

/-- The retry-scenario run: hard ceiling 10, ample fuel, the source
router, the delivery-app initial state. -/
def c5Run : RunResult :=
  runStyle 10 c5Oracle should_retry 20 (.node .analyze) (exampleInitialState "delivery app") Visits.zero

/-- Projection: final iteration_count (0 when the run did not finish). -/
def resultIter : RunResult → Nat
  | .final s _ => s.iteration_count
  | _ => 0

/-- Projection: final validation_passed flag. -/
def resultPassed : RunResult → Bool
  | .final s _ => s.validation_passed
  | _ => false

/-- Projection: how often the `create` node was entered. -/
def resultCreateVisits : RunResult → Nat
  | .final _ v => v.create
  | _ => 0

/-- Projection: did the run reach END normally? -/
def resultIsFinal : RunResult → Bool
  | .final _ _ => true
  | _ => false

/-- Projection: the final error field. -/
def resultError : RunResult → Option String
  | .final s _ => s.error
  | _ => none

/-- A tool response whose SECOND content part is flagged as an error
while the first is a plain text part. -/
def errorSecondResp : ToolResponse :=
  { content := .clist
      [{ text := some "hi" },
       { isError := true, text := some "boom" }] }

/-- A successful tool response whose only content part carries empty
text (for the geojson adapter). -/
def emptyTextResp : ToolResponse :=
  { content := .clist [{ text := some "" }] }

/-- Backend that requests a tool on every iteration, producing text
`A`, then `B`, then nothing. -/
def cex8Oracle : ChatOracle :=
  { respond := fun i =>
      if i == 0 then { textBlocks := ["A"], toolUses := [{ name := "t", useId := "1" }] }
      else if i == 1 then { textBlocks := ["B"], toolUses := [{ name := "t", useId := "2" }] }
      else { textBlocks := [], toolUses := [{ name := "t", useId := "3" }] } }

/-- A tool response whose first (and only) content part is flagged as
an error. -/
def errorFirstResp : ToolResponse :=
  { content := .clist [{ isError := true, text := some "boom" }] }

/-- Oracle whose builder-tool call returns an error-flagged part on
the first create attempt; everything else is immaterial. -/
def c3Oracle : StyleOracle :=
  { listStylesResp := fun _ => .error "down"
    stylesList := fun _ => []
    analyzeLLM := fun _ => "analysis"
    baseStyleLLM := fun _ => "streets-v12"
    builderResp := fun _ => .ok errorFirstResp
    createResp := fun _ => .error "unused"
    retrieveResp := fun _ => .error "unused"
    validateLLM := fun _ => "unused"
    finalizeLLM := fun _ => "unused" }

/-- Does the response carry any content part flagged as an error? -/
def containsErrorPart (r : ToolResponse) : Bool :=
  match r.content with
  | .clist items => items.any fun i => i.isError
  | _ => false

end Inputs

/-! # Theorems -/

section EngineTheorems

open StyleWorkflow

/-- One engine step that recurses strictly decreases the remaining
visit allowance. -/
theorem visitMeasure_inc_lt (ceil : Nat) (v : Visits) (n : SNode)
    (h : (v.inc n).get n ≤ ceil) :
    visitMeasure ceil (v.inc n) < visitMeasure ceil v := by
  cases n <;> simp [Visits.inc, Visits.get, visitMeasure] at * <;> omega

/-- With fuel exceeding the total visit allowance the engine never
exhausts its fuel: every run finishes as `final`, `loopSafety` or
`routerViolation`. -/
theorem runStyle_no_fuel_exhaustion (ceil : Nat) (o : StyleOracle)
    (router : StyleState → String) :
    ∀ fuel p s v, visitMeasure ceil v < fuel →
      runStyle ceil o router fuel p s v ≠ RunResult.outOfFuel := by
  intro fuel
  induction fuel with
  | zero => intro p s v h; omega
  | succ m ih =>
    intro p s v h
    cases p with
    | terminal => simp [runStyle]
    | node n =>
      simp only [runStyle]
      by_cases hc : ceil < (v.inc n).get n
      · simp [hc]
      · push_neg at hc
        simp only [if_neg (by omega : ¬ ceil < (v.inc n).get n)]
        cases hnext : nextPos router (execSNode o (v.get n) n s) n with
        | none => simp [hnext]
        | some p' =>
          simp only [hnext]
          exact ih p' _ (v.inc n)
            (by have := visitMeasure_inc_lt ceil v n hc; omega)

/-- C1: for every initial state and every router behaviour (and every
behaviour of the external collaborators), a style-workflow run under
the hard visit ceiling terminates within a bounded number of node
visits: fuel `4 * (ceiling + 1) + 1` is never exhausted, so no node is
ever visited an unbounded number of times - a defective router ends in
`loopSafety`, never in divergence. -/
theorem c1_bounded_termination (ceil : Nat) (o : StyleOracle)
    (router : StyleState → String) (s : StyleState) :
    runStyle ceil o router (4 * (ceil + 1) + 1) (.node .analyze) s Visits.zero ≠
      RunResult.outOfFuel := by
  apply runStyle_no_fuel_exhaustion
  simp [visitMeasure, Visits.zero]
  omega

/-- C2: with a null error field, validation not passed and the
iteration count at (or beyond) the configured maximum of 3, the retry
router decides `finalize`, never `retry`. -/
theorem c2_forced_finalize (s : StyleState)
    (herr : s.error = none) (hval : s.validation_passed = false)
    (hit : 3 ≤ s.iteration_count) :
    should_retry s = "finalize" := by
  simp [should_retry, herr, hval, pyTruthyStr, hit]

/-- Closed witness for C2 at a concrete state. -/
theorem c2_forced_finalize_witness :
    should_retry { exampleInitialState "reqs" with iteration_count := 3 } = "finalize" :=
  c2_forced_finalize _ rfl rfl (by decide)

end EngineTheorems

section BaseStyleTheorems

open StyleWorkflow

/-- C10: whatever string the reasoning backend returns as its
base-style recommendation, the `base_style` argument computed for the
`style_builder_tool` call is one of the five valid identifiers, and
any recommendation whose cleaned form is unrecognised is replaced by
the default `streets-v12`. -/
theorem c10_base_style_whitelisted (resp : String) :
    cleanBaseStyle resp ∈ valid_style_values ∧
      (pyReplace (pyStrip resp) "mapbox/" "" ∉ valid_style_values →
        cleanBaseStyle resp = "streets-v12") := by
  unfold cleanBaseStyle
  by_cases h : valid_style_values.contains (pyReplace (pyStrip resp) "mapbox/" "")
  · refine ⟨?_, ?_⟩
    · simp only [if_pos h]
      exact List.mem_of_elem_eq_true h
    · intro hn
      exact absurd (List.mem_of_elem_eq_true h) hn
  · constructor
    · simp only [if_neg h]; decide
    · intro _; simp only [if_neg h]

/-- Closed witness for C10 at an unrecognised recommendation. -/
theorem c10_base_style_whitelisted_witness :
    cleanBaseStyle "fantasy-style-v1" ∈ valid_style_values ∧
      cleanBaseStyle "fantasy-style-v1" = "streets-v12" :=
  ⟨(c10_base_style_whitelisted "fantasy-style-v1").1,
    (c10_base_style_whitelisted "fantasy-style-v1").2 (by decide)⟩

end BaseStyleTheorems

section ScenarioTheorems

open StyleWorkflow GeojsonWorkflow GradioApp

/-- C5: with the bound at 3 and a validator failing on attempts 1 and
2 and passing on attempt 3, the run reaches END with
`iteration_count = 3`, `validation_passed = true`, and the `create`
node entered exactly 3 times. -/
theorem c5_retry_scenario :
    Inputs.resultIsFinal Inputs.c5Run = true ∧
      Inputs.resultIter Inputs.c5Run = 3 ∧
      Inputs.resultPassed Inputs.c5Run = true ∧
      Inputs.resultCreateVisits Inputs.c5Run = 3 := by
  decide

/-- C3 counterexample: a tool result that does contain an
error-flagged content part - in second position - is returned by the
adapter as a plain success, not surfaced as a failure, because
`call_tool` only inspects `result.content[0]`. -/
theorem c3_counterexample :
    Inputs.containsErrorPart Inputs.errorSecondResp = true ∧
      call_tool "style_builder_tool" Inputs.errorSecondResp =
        Except.ok (ToolValue.wrapped "hi") := by
  constructor <;> rfl

/-- C9 counterexample: the geojson workflow adapter, invoked on a
successful result whose only content part has empty text, silently
returns the empty string as the tool text instead of reporting any
anomaly. -/
theorem c9_counterexample :
    geo_call_tool Inputs.emptyTextResp = Except.ok (GeoToolResult.textDict "") := by
  rfl

/-- C8 counterexample: with a backend requesting a tool on every
iteration, the loop makes exactly 3 inference calls and then returns
the empty final-iteration text, discarding the text `A` and `B`
produced earlier and recording no anomaly - not "whatever text has
been produced so far plus a recorded anomaly". -/
theorem c8_counterexample :
    chat_with_agent Inputs.cex8Oracle = ("", 3) ∧
      (Inputs.cex8Oracle.respond 0).textBlocks = ["A"] ∧
      (Inputs.cex8Oracle.respond 1).textBlocks = ["B"] := by
  refine ⟨?_, rfl, rfl⟩
  rfl

/-- C8 (amended): for every backend behaviour the agent loop performs
at least one and at most 3 inference-tool round trips - it can neither
hang nor continue unboundedly - and the text it returns is exactly the
text of the final inference performed (earlier text is discarded and
no anomaly is recorded). -/
theorem c8_loop_bounded (o : ChatOracle) :
    1 ≤ (chat_with_agent o).2 ∧ (chat_with_agent o).2 ≤ 3 ∧
      (chat_with_agent o).1 =
        joinNL (o.respond ((chat_with_agent o).2 - 1)).textBlocks := by
  simp only [chat_with_agent, agentRounds]
  by_cases h0 : (o.respond 0).toolUses.isEmpty <;>
    by_cases h1 : (o.respond 1).toolUses.isEmpty <;>
      by_cases h2 : (o.respond 2).toolUses.isEmpty <;>
        simp [h0, h1, h2]

end ScenarioTheorems

section IterationTheorems

open StyleWorkflow

/-- The analyze node never changes `iteration_count`. -/
theorem analyze_iteration_eq (o : StyleOracle) (k : Nat) (s : StyleState) :
    (analyze_requirements_node o k s).iteration_count = s.iteration_count := by
  unfold analyze_requirements_node
  rcases h : o.listStylesResp k with e | resp
  · simp [h]
  · rcases hc : call_tool "list_styles_tool" resp with e | v <;> simp [h, hc]

/-- The create node either leaves `iteration_count` unchanged (any
failure) or increments it by one (successful creation). -/
theorem create_iteration_mono (o : StyleOracle) (k : Nat) (s : StyleState) :
    s.iteration_count ≤ (create_style_node o k s).iteration_count := by
  unfold create_style_node
  rcases hb : o.builderResp k with e | resp
  · simp [hb]
  · rcases hc : call_tool "style_builder_tool" resp with e | v
    · simp [hb, hc]
    · rcases hj : extractJsonBlock (v.get "result" "") with _ | j
      · simp [hb, hc, hj]
      · rcases hcr : o.createResp k with e | cresp
        · simp [hb, hc, hj, hcr]
        · rcases hcc : call_tool "create_style_tool" cresp with e | cv
          · simp [hb, hc, hj, hcr, hcc]
          · simp [hb, hc, hj, hcr, hcc]

/-- The validate node never changes `iteration_count`. -/
theorem validate_iteration_eq (o : StyleOracle) (k : Nat) (s : StyleState) :
    (validate_style_node o k s).iteration_count = s.iteration_count := by
  unfold validate_style_node
  by_cases h : s.created_style_id.data.isEmpty
  · simp [h]
  · rcases hr : o.retrieveResp k with e | resp
    · simp [h, hr]
    · rcases hc : call_tool "retrieve_style_tool" resp with e | v
      · simp [h, hr, hc]
      · by_cases hp : strContainsSub (pyToUpper (o.validateLLM k)) "PASS" <;>
          simp [h, hr, hc, hp]

/-- C4: every node executor of the style workflow is monotone in
`iteration_count` - the counter is only ever incremented (by the
create node on success), never reset or decreased - and the example
initial state starts it at 0. -/
theorem c4_iteration_count_monotone :
    (∀ (o : StyleOracle) (k : Nat) (n : SNode) (s : StyleState),
        s.iteration_count ≤ (execSNode o k n s).iteration_count) ∧
      ∀ reqs, (exampleInitialState reqs).iteration_count = 0 := by
  constructor
  · intro o k n s
    cases n
    · exact Nat.le_of_eq (analyze_iteration_eq o k s).symm
    · exact create_iteration_mono o k s
    · exact Nat.le_of_eq (validate_iteration_eq o k s).symm
    · exact Nat.le_refl _
  · intro reqs; rfl

end IterationTheorems

section ErrorPathTheorems

open StyleWorkflow

/-- The analyze node touches neither `created_style_id` nor `error`. -/
theorem analyze_id_error_eq (o : StyleOracle) (k : Nat) (s : StyleState) :
    (analyze_requirements_node o k s).created_style_id = s.created_style_id ∧
      (analyze_requirements_node o k s).error = s.error := by
  unfold analyze_requirements_node
  rcases h : o.listStylesResp k with e | resp
  · simp [h]
  · rcases hc : call_tool "list_styles_tool" resp with e | v <;> simp [h, hc]

/-- When the first content part of the builder response is flagged as
an error, the create node lands in its `except` branch: the failure is
recorded in `error` and nothing else changes. -/
theorem create_error_flagged (o : StyleOracle) (k : Nat) (s : StyleState)
    (resp : ToolResponse) (item : ContentItem) (rest : List ContentItem)
    (hb : o.builderResp k = .ok resp)
    (hc : resp.content = .clist (item :: rest))
    (he : item.isError = true) :
    create_style_node o k s =
      { s with error := some ("Failed to create style: " ++
          ("Tool " ++ "style_builder_tool" ++ " failed: " ++ item.text.getD "Unknown error")) } := by
  have hct : call_tool "style_builder_tool" resp =
      .error ("Tool " ++ "style_builder_tool" ++ " failed: " ++ item.text.getD "Unknown error") := by
    simp [call_tool, hc, he]
  unfold create_style_node
  simp [hb, hct]

/-- With no style created yet, the validate node records the failed
validation and changes nothing else. -/
theorem validate_empty_id (o : StyleOracle) (k : Nat) (s : StyleState)
    (h : s.created_style_id = "") :
    validate_style_node o k s =
      { s with validation_passed := false,
               validation_result := "No style created to validate" } := by
  unfold validate_style_node
  simp [h]

/-- A recorded creation failure is truthy, so the router decides
`error`. -/
theorem should_retry_error (s : StyleState) (msg : String)
    (h : s.error = some ("Failed to create style: " ++ msg)) :
    should_retry s = "error" := by
  unfold should_retry
  rw [h]
  simp [pyTruthyStr, String.data_append]

/-- One engine step entering a node below the ceiling. -/
theorem runStyle_step_node (ceil : Nat) (o : StyleOracle)
    (router : StyleState → String) (fuel : Nat) (n : SNode)
    (s : StyleState) (v : Visits)
    (hceil : ¬ ceil < (v.inc n).get n) (p : SPos)
    (hnext : nextPos router (execSNode o (v.get n) n s) n = some p) :
    runStyle ceil o router (fuel + 1) (.node n) s v =
      runStyle ceil o router fuel p (execSNode o (v.get n) n s) (v.inc n) := by
  simp [runStyle, hceil, hnext]

/-- C3 (amended): when the FIRST content part of a tool result is
explicitly flagged as an error, the adapter surfaces it as an
`Except.error` - the same failure kind a transport failure uses - the
create node records the failure into the state's `error` field, and
the run proceeds via the `error` edge of the retry router to TERMINAL,
finishing normally at Engine level.  (The counterexample shows the
adapter only inspects `content[0]`, so an error part in any later
position is NOT surfaced; the claim holds with "contains a content
part" restricted to the first part.) -/
theorem c3_error_part_to_terminal (reqs : String) (o : StyleOracle)
    (resp : ToolResponse) (item : ContentItem) (rest : List ContentItem)
    (hb : o.builderResp 0 = .ok resp)
    (hc : resp.content = .clist (item :: rest))
    (he : item.isError = true) :
    call_tool "style_builder_tool" resp =
      Except.error ("Tool " ++ "style_builder_tool" ++ " failed: " ++ item.text.getD "Unknown error") ∧
    ∃ s v, runStyle 10 o should_retry 20 (.node .analyze)
        (exampleInitialState reqs) Visits.zero = RunResult.final s v ∧
      pyTruthyStr s.error = true := by
  refine ⟨by simp [call_tool, hc, he], ?_⟩
  have e1 : runStyle 10 o should_retry 20 (.node .analyze)
      (exampleInitialState reqs) Visits.zero =
      runStyle 10 o should_retry 19 (.node .create)
        (execSNode o 0 .analyze (exampleInitialState reqs)) ⟨1, 0, 0, 0⟩ :=
    runStyle_step_node 10 o should_retry 19 .analyze _ _ (by decide) _ rfl
  have e2 : runStyle 10 o should_retry 19 (.node .create)
      (execSNode o 0 .analyze (exampleInitialState reqs)) ⟨1, 0, 0, 0⟩ =
      runStyle 10 o should_retry 18 (.node .validate)
        (execSNode o 0 .create (execSNode o 0 .analyze (exampleInitialState reqs)))
        ⟨1, 1, 0, 0⟩ :=
    runStyle_step_node 10 o should_retry 18 .create _ _ (by decide) _ rfl
  have herr2 : (execSNode o 0 .create
      (execSNode o 0 .analyze (exampleInitialState reqs))).error =
      some ("Failed to create style: " ++
        ("Tool " ++ "style_builder_tool" ++ " failed: " ++ item.text.getD "Unknown error")) := by
    rw [show execSNode o 0 SNode.create = create_style_node o 0 from rfl,
      create_error_flagged o 0 _ resp item rest hb hc he]
  have hid2 : (execSNode o 0 .create
      (execSNode o 0 .analyze (exampleInitialState reqs))).created_style_id = "" := by
    rw [show execSNode o 0 SNode.create = create_style_node o 0 from rfl,
      create_error_flagged o 0 _ resp item rest hb hc he]
    exact (analyze_id_error_eq o 0 (exampleInitialState reqs)).1
  have hval : execSNode o 0 .validate
      (execSNode o 0 .create (execSNode o 0 .analyze (exampleInitialState reqs))) =
      { execSNode o 0 .create (execSNode o 0 .analyze (exampleInitialState reqs)) with
          validation_passed := false,
          validation_result := "No style created to validate" } :=
    validate_empty_id o 0 _ hid2
  have e3 : runStyle 10 o should_retry 18 (.node .validate)
      (execSNode o 0 .create (execSNode o 0 .analyze (exampleInitialState reqs)))
      ⟨1, 1, 0, 0⟩ =
      runStyle 10 o should_retry 17 .terminal
        (execSNode o 0 .validate
          (execSNode o 0 .create (execSNode o 0 .analyze (exampleInitialState reqs))))
        ⟨1, 1, 1, 0⟩ := by
    refine runStyle_step_node 10 o should_retry 17 .validate _ _ (by decide) _ ?_
    have hroute : should_retry (execSNode o 0 .validate
        (execSNode o 0 .create (execSNode o 0 .analyze (exampleInitialState reqs)))) = "error" := by
      apply should_retry_error _ _
      rw [hval]
      exact herr2
    simp only [nextPos, Visits.get]
    rw [hroute]
    rfl
  refine ⟨_, _, by rw [e1, e2, e3]; rfl, ?_⟩
  rw [hval]
  have : ({ execSNode o 0 .create (execSNode o 0 .analyze (exampleInitialState reqs)) with
      validation_passed := false,
      validation_result := "No style created to validate" } : StyleState).error =
      some ("Failed to create style: " ++
        ("Tool " ++ "style_builder_tool" ++ " failed: " ++ item.text.getD "Unknown error")) := by
    simpa using herr2
  rw [this]
  simp [pyTruthyStr, String.data_append]

/-- Closed witness for C3 (amended) at a concrete oracle whose builder
call returns an error-flagged first part. -/
theorem c3_error_part_to_terminal_witness :
    call_tool "style_builder_tool" Inputs.errorFirstResp =
      Except.error ("Tool " ++ "style_builder_tool" ++ " failed: " ++
        (some "boom" : Option String).getD "Unknown error") ∧
    ∃ s v, runStyle 10 Inputs.c3Oracle should_retry 20 (.node .analyze)
        (exampleInitialState "reqs") Visits.zero = RunResult.final s v ∧
      pyTruthyStr s.error = true :=
  c3_error_part_to_terminal "reqs" Inputs.c3Oracle Inputs.errorFirstResp _ _ rfl rfl rfl

end ErrorPathTheorems

section RouterTheorems

open GeojsonWorkflow

/-- The classification router only ever returns one of the four keys
of its internal routing dict. -/
theorem route_in_table (s : GeoState) :
    route_by_data_type s = "analyze_points" ∨ route_by_data_type s = "analyze_lines" ∨
      route_by_data_type s = "analyze_polygons" ∨ route_by_data_type s = "analyze_mixed" := by
  unfold route_by_data_type
  rcases h : getKey s "data_type" with _ | v
  · decide
  · cases v with
    | vstr d =>
      by_cases h1 : d = "points"
      · subst h1; decide
      · by_cases h2 : d = "lines"
        · subst h2; decide
        · by_cases h3 : d = "polygons"
          · subst h3; decide
          · by_cases h4 : d = "mixed"
            · subst h4; decide
            · have b1 : (d == "points") = false := by simpa using h1
              have b2 : (d == "lines") = false := by simpa using h2
              have b3 : (d == "polygons") = false := by simpa using h3
              have b4 : (d == "mixed") = false := by simpa using h4
              simp [routingDict, List.lookup, b1, b2, b3, b4]
    | vnone => simp
    | vnat n => simp
    | vq q => simp
    | vlist l => simp
    | vgeo fs => simp

/-- C6: for every state value of the categorical field `data_type` -
any string outside the declared domain as well as the absent/None case
included - the classification router returns a key present in the
declared routing table of the conditional edge (so the Engine never
sees an unmapped decision), and every out-of-domain value routes to
the declared default `analyze_mixed`. -/
theorem c6_classifier_total (s : GeoState) :
    (geoCondTable.lookup (route_by_data_type s)).isSome = true ∧
      ((∀ d : String, getKey s "data_type" = some (GVal.vstr d) →
          d ∉ ["points", "lines", "polygons", "mixed"]) →
        route_by_data_type s = "analyze_mixed") := by
  constructor
  · rcases route_in_table s with h | h | h | h <;> rw [h] <;> rfl
  · intro hout
    unfold route_by_data_type
    rcases h : getKey s "data_type" with _ | v
    · decide
    · cases v with
      | vstr d =>
        have hd := hout d h
        simp only [List.mem_cons, List.not_mem_nil, or_false, not_or] at hd
        obtain ⟨h1, h2, h3, h4⟩ := hd
        have b1 : (d == "points") = false := by simpa using h1
        have b2 : (d == "lines") = false := by simpa using h2
        have b3 : (d == "polygons") = false := by simpa using h3
        have b4 : (d == "mixed") = false := by simpa using h4
        simp [routingDict, List.lookup, b1, b2, b3, b4]
      | vnone => simp
      | vnat n => simp
      | vq q => simp
      | vlist l => simp
      | vgeo fs => simp

/-- Closed witness for C6 at the None-valued `data_type`. -/
theorem c6_classifier_total_witness :
    (geoCondTable.lookup (route_by_data_type [("data_type", GVal.vnone)])).isSome = true ∧
      route_by_data_type [("data_type", GVal.vnone)] = "analyze_mixed" :=
  ⟨(c6_classifier_total [("data_type", GVal.vnone)]).1,
    (c6_classifier_total [("data_type", GVal.vnone)]).2
      (by intro d hd; simp [getKey, List.lookup] at hd)⟩

end RouterTheorems

section AdapterTheorems

open StyleWorkflow

/-- C9 (amended): the style workflow adapter reports a distinct,
explicit anomaly - a raised error naming the condition - both for a
successful result carrying no content parts and for a first content
part carrying empty text, instead of silently passing an empty value
through.  (The geojson workflow adapter does neither: the
counterexample shows it silently returning the empty string, so the
claim holds only for the style workflow adapter.) -/
theorem c9_style_adapter_empty_anomalies (name : String) (resp : ToolResponse) :
    (resp.content = ContentAttr.clist [] →
      call_tool name resp = Except.error ("Tool " ++ name ++ " returned empty content")) ∧
    (∀ item rest, resp.content = ContentAttr.clist (item :: rest) →
      item.isError = false → item.text = some "" →
      call_tool name resp = Except.error ("Tool " ++ name ++ " returned empty text")) := by
  constructor
  · intro h
    simp [call_tool, h]
  · intro item rest h hie ht
    simp [call_tool, h, hie, ht, pyStrip]

/-- Closed witness for C9 (amended) at two concrete responses. -/
theorem c9_style_adapter_empty_anomalies_witness :
    call_tool "list_styles_tool" { content := ContentAttr.clist [] } =
      Except.error ("Tool " ++ "list_styles_tool" ++ " returned empty content") ∧
    call_tool "list_styles_tool" Inputs.emptyTextResp =
      Except.error ("Tool " ++ "list_styles_tool" ++ " returned empty text") :=
  ⟨(c9_style_adapter_empty_anomalies "list_styles_tool" _).1 rfl,
    (c9_style_adapter_empty_anomalies "list_styles_tool" _).2 _ [] rfl rfl rfl⟩

end AdapterTheorems

section FieldPreservationTheorems

open GeojsonWorkflow

/-- Key assignment never removes a key. -/
theorem hasKey_setKey_mono (k : String) (v : GVal) (q : String) :
    ∀ s : GeoState, hasKey s q = true → hasKey (setKey s k v) q = true := by
  intro s
  induction s with
  | nil => intro h; simp [hasKey] at h
  | cons p rest ih =>
    obtain ⟨k0, v0⟩ := p
    intro h
    by_cases hk : (k0 == k) = true
    · simpa [setKey, hk, hasKey] using h
    · simp only [hasKey, Bool.or_eq_true] at h
      simp only [setKey, hk, if_false, Bool.false_eq_true, hasKey, Bool.or_eq_true]
      rcases h with h | h
      · exact Or.inl h
      · exact Or.inr (ih h)

/-- Every node executor of the GeoJSON workflow only assigns state
fields; no declared (or other) key is ever removed. -/
theorem execGNode_hasKey (o : GeoOracle) (n : GNode) (s : GeoState) (q : String)
    (h : hasKey s q = true) : hasKey (execGNode o n s) q = true := by
  cases n with
  | classify => exact hasKey_setKey_mono _ _ _ _ (hasKey_setKey_mono _ _ _ _ h)
  | assess_quality => exact hasKey_setKey_mono _ _ _ _ (hasKey_setKey_mono _ _ _ _ h)
  | analyze_points => exact hasKey_setKey_mono _ _ _ _ h
  | analyze_lines => exact hasKey_setKey_mono _ _ _ _ h
  | analyze_polygons => exact hasKey_setKey_mono _ _ _ _ h
  | analyze_mixed => exact hasKey_setKey_mono _ _ _ _ h
  | recommend => exact hasKey_setKey_mono _ _ _ _ h
  | report => exact hasKey_setKey_mono _ _ _ _ h
  | visualize =>
    show hasKey (create_visualization_node o s) q = true
    unfold create_visualization_node
    repeat' split
    all_goals exact hasKey_setKey_mono _ _ _ _ h

/-- One engine step of the GeoJSON runner. -/
theorem geoRun_step (o : GeoOracle) (fuel : Nat) (n : GNode) (s : GeoState)
    (p : GPos) (hnext : geoNextPos (execGNode o n s) n = some p) :
    geoRun o (fuel + 1) (.node n) s = geoRun o fuel p (execGNode o n s) := by
  simp [geoRun, hnext]

/-- C7: starting `run` from the initial state that assigns every
declared field its default value, the GeoJSON workflow reaches END for
every input document and every collaborator behaviour, and the final
state still contains every declared field - no node execution removes
a field, even one never modified from its default. -/
theorem c7_fields_preserved (data : List Feature) (o : GeoOracle) :
    ∃ sf, geoRun o 8 (.node .classify) (geoInitialState data) = GeoRunResult.final sf ∧
      (declaredFields.all fun k => hasKey sf k) = true := by
  rcases route_in_table
      (execGNode o .assess_quality (execGNode o .classify (geoInitialState data))) with
    h | h | h | h
  · refine ⟨execGNode o .report (execGNode o .recommend (execGNode o .visualize (execGNode o .analyze_points (execGNode o .assess_quality (execGNode o .classify (geoInitialState data)))))), ?_, ?_⟩
    · rw [geoRun_step o 7 .classify (geoInitialState data) _ rfl,
        geoRun_step o 6 .assess_quality (execGNode o .classify (geoInitialState data)) _
          (show geoCondTable.lookup (route_by_data_type
              (execGNode o .assess_quality (execGNode o .classify (geoInitialState data)))) =
            some (GPos.node GNode.analyze_points) from by rw [h]; rfl)]
      rfl
    · rw [List.all_eq_true]
      intro k hk
      have h0 : hasKey (geoInitialState data) k = true := by fin_cases hk <;> rfl
      exact execGNode_hasKey o .report _ _ (execGNode_hasKey o .recommend _ _
        (execGNode_hasKey o .visualize _ _ (execGNode_hasKey o .analyze_points _ _
          (execGNode_hasKey o .assess_quality _ _ (execGNode_hasKey o .classify _ _ h0)))))
  · refine ⟨execGNode o .report (execGNode o .recommend (execGNode o .visualize (execGNode o .analyze_lines (execGNode o .assess_quality (execGNode o .classify (geoInitialState data)))))), ?_, ?_⟩
    · rw [geoRun_step o 7 .classify (geoInitialState data) _ rfl,
        geoRun_step o 6 .assess_quality (execGNode o .classify (geoInitialState data)) _
          (show geoCondTable.lookup (route_by_data_type
              (execGNode o .assess_quality (execGNode o .classify (geoInitialState data)))) =
            some (GPos.node GNode.analyze_lines) from by rw [h]; rfl)]
      rfl
    · rw [List.all_eq_true]
      intro k hk
      have h0 : hasKey (geoInitialState data) k = true := by fin_cases hk <;> rfl
      exact execGNode_hasKey o .report _ _ (execGNode_hasKey o .recommend _ _
        (execGNode_hasKey o .visualize _ _ (execGNode_hasKey o .analyze_lines _ _
          (execGNode_hasKey o .assess_quality _ _ (execGNode_hasKey o .classify _ _ h0)))))
  · refine ⟨execGNode o .report (execGNode o .recommend (execGNode o .visualize (execGNode o .analyze_polygons (execGNode o .assess_quality (execGNode o .classify (geoInitialState data)))))), ?_, ?_⟩
    · rw [geoRun_step o 7 .classify (geoInitialState data) _ rfl,
        geoRun_step o 6 .assess_quality (execGNode o .classify (geoInitialState data)) _
          (show geoCondTable.lookup (route_by_data_type
              (execGNode o .assess_quality (execGNode o .classify (geoInitialState data)))) =
            some (GPos.node GNode.analyze_polygons) from by rw [h]; rfl)]
      rfl
    · rw [List.all_eq_true]
      intro k hk
      have h0 : hasKey (geoInitialState data) k = true := by fin_cases hk <;> rfl
      exact execGNode_hasKey o .report _ _ (execGNode_hasKey o .recommend _ _
        (execGNode_hasKey o .visualize _ _ (execGNode_hasKey o .analyze_polygons _ _
          (execGNode_hasKey o .assess_quality _ _ (execGNode_hasKey o .classify _ _ h0)))))
  · refine ⟨execGNode o .report (execGNode o .recommend (execGNode o .visualize (execGNode o .analyze_mixed (execGNode o .assess_quality (execGNode o .classify (geoInitialState data)))))), ?_, ?_⟩
    · rw [geoRun_step o 7 .classify (geoInitialState data) _ rfl,
        geoRun_step o 6 .assess_quality (execGNode o .classify (geoInitialState data)) _
          (show geoCondTable.lookup (route_by_data_type
              (execGNode o .assess_quality (execGNode o .classify (geoInitialState data)))) =
            some (GPos.node GNode.analyze_mixed) from by rw [h]; rfl)]
      rfl
    · rw [List.all_eq_true]
      intro k hk
      have h0 : hasKey (geoInitialState data) k = true := by fin_cases hk <;> rfl
      exact execGNode_hasKey o .report _ _ (execGNode_hasKey o .recommend _ _
        (execGNode_hasKey o .visualize _ _ (execGNode_hasKey o .analyze_mixed _ _
          (execGNode_hasKey o .assess_quality _ _ (execGNode_hasKey o .classify _ _ h0)))))

end FieldPreservationTheorems
